import Mathlib

/-!
Shallow embedding of the UEVR Lua API binding layer (src/lua-api/Main.cpp):
the `ScriptContext` callback relay (construction, handler registration,
trampoline dispatch, teardown) and the `UEVR_Matrix4x4f/d` index metamethods.

Modelling conventions:
* `sol::protected_function` values are opaque references, modelled as `Nat` ids.
* Raw pointers and `float` payloads are opaque pass-through data, modelled as `Nat`.
* Calls into the host ABI (`cbs->on_*`, `functions->remove_callback`) are
  recorded as `HostCall` trace events instead of performing effects.
* Mutation of the global `script_context` becomes explicit state passing on a
  `ScriptContext` structure whose fields mirror the C++ members.
* The recursive mutex serialises every operation; each operation is therefore
  embedded as an atomic function on the state.
-/

/-- Opaque model of a `UEVR_PluginInitializeParam*` obtained via
`GetProcAddress(unreal_vr_backend, "g_plugin_initialize_param")`; only its
identity matters to the relay, so it carries just an address. -/
structure UEVR_PluginInitializeParam where
  addr : Nat
deriving DecidableEq, Repr

/-- The eight fixed callback slots of the relay, one per static trampoline in
`ScriptContext` (Main.cpp lines 93-186). -/
inductive CallbackSlot where
  | on_pre_engine_tick
  | on_post_engine_tick
  | on_pre_slate_draw_window_render_thread
  | on_post_slate_draw_window_render_thread
  | on_pre_calculate_stereo_view_offset
  | on_post_calculate_stereo_view_offset
  | on_pre_viewport_client_draw
  | on_post_viewport_client_draw
deriving DecidableEq, Repr

/-- Each static trampoline function has a distinct address; `(void*)cb` in
`add_callback` records it. We enumerate the eight addresses. -/
def trampolineAddr : CallbackSlot → Nat
  | .on_pre_engine_tick => 0
  | .on_post_engine_tick => 1
  | .on_pre_slate_draw_window_render_thread => 2
  | .on_post_slate_draw_window_render_thread => 3
  | .on_pre_calculate_stereo_view_offset => 4
  | .on_post_calculate_stereo_view_offset => 5
  | .on_pre_viewport_client_draw => 6
  | .on_post_viewport_client_draw => 7

/-- A call made into the host ABI by the relay: `adder(cb)` inside
`ScriptContext::add_callback` (the slot identifies which
`cbs->on_*` adder function was used), or
`m_plugin_initialize_param->functions->remove_callback(cb)` in the destructor. -/
inductive HostCall where
  | add_callback (slot : CallbackSlot) (addr : Nat)
  | remove_callback (addr : Nat)
deriving DecidableEq, Repr

/-- State of the C++ `ScriptContext`, member for member (Main.cpp lines 78-91).
Handler vectors hold opaque `sol::protected_function` ids. -/
structure ScriptContext where
  m_plugin_initialize_param : Option UEVR_PluginInitializeParam
  m_callbacks_to_remove : List Nat
  m_on_pre_engine_tick_callbacks : List Nat
  m_on_post_engine_tick_callbacks : List Nat
  m_on_pre_slate_draw_window_render_thread_callbacks : List Nat
  m_on_post_slate_draw_window_render_thread_callbacks : List Nat
  m_on_pre_calculate_stereo_view_offset_callbacks : List Nat
  m_on_post_calculate_stereo_view_offset_callbacks : List Nat
  m_on_pre_viewport_client_draw_callbacks : List Nat
  m_on_post_viewport_client_draw_callbacks : List Nat
deriving DecidableEq, Repr

/-- A freshly default-initialised `ScriptContext` (all members value-initialised
by the `{}` initialisers in the class body). -/
def ScriptContext.fresh : ScriptContext :=
  { m_plugin_initialize_param := none
    m_callbacks_to_remove := []
    m_on_pre_engine_tick_callbacks := []
    m_on_post_engine_tick_callbacks := []
    m_on_pre_slate_draw_window_render_thread_callbacks := []
    m_on_post_slate_draw_window_render_thread_callbacks := []
    m_on_pre_calculate_stereo_view_offset_callbacks := []
    m_on_post_calculate_stereo_view_offset_callbacks := []
    m_on_pre_viewport_client_draw_callbacks := []
    m_on_post_viewport_client_draw_callbacks := [] }

/-- `ScriptContext::ScriptContext` (Main.cpp lines 15-26): if
`GetModuleHandleA("UEVRBackend.dll")` returns null the constructor returns
early with every member default-initialised; otherwise
`m_plugin_initialize_param` becomes whatever `GetProcAddress` yields (possibly
null). `backend_module` models whether the module handle was found and
`g_plugin_initialize_param` models the `GetProcAddress` result. -/
def ScriptContext.construct (backend_module : Bool)
    (g_plugin_initialize_param : Option UEVR_PluginInitializeParam) : ScriptContext :=
  if backend_module then
    { ScriptContext.fresh with m_plugin_initialize_param := g_plugin_initialize_param }
  else
    ScriptContext.fresh

/-- `ScriptContext::valid` (Main.cpp lines 43-45). -/
def ScriptContext.valid (s : ScriptContext) : Bool :=
  s.m_plugin_initialize_param.isSome

/-- `ScriptContext::add_callback` (Main.cpp lines 68-76): under the lock, when
`m_plugin_initialize_param` is non-null, call the host adder with the
trampoline and record the trampoline's address for later removal; otherwise do
nothing. Returns the new state and the host calls made. -/
def ScriptContext.add_callback (s : ScriptContext) (slot : CallbackSlot) (cb : Nat) :
    ScriptContext × List HostCall :=
  match s.m_plugin_initialize_param with
  | some _ =>
      ({ s with m_callbacks_to_remove := s.m_callbacks_to_remove ++ [cb] },
       [HostCall.add_callback slot cb])
  | none => (s, [])

/-- `ScriptContext::~ScriptContext` (Main.cpp lines 28-38): under the lock, when
`m_plugin_initialize_param` is non-null, call `remove_callback` for every
recorded address and clear the record; otherwise do nothing. -/
def ScriptContext.destruct (s : ScriptContext) : ScriptContext × List HostCall :=
  match s.m_plugin_initialize_param with
  | some _ =>
      ({ s with m_callbacks_to_remove := [] },
       s.m_callbacks_to_remove.map HostCall.remove_callback)
  | none => (s, [])

/-- The order in which `setup_callback_bindings` (Main.cpp lines 194-201)
registers the eight trampolines with the host. -/
def slotRegistrationOrder : List CallbackSlot :=
  [ .on_pre_engine_tick
  , .on_post_engine_tick
  , .on_pre_slate_draw_window_render_thread
  , .on_post_slate_draw_window_render_thread
  , .on_pre_calculate_stereo_view_offset
  , .on_post_calculate_stereo_view_offset
  , .on_pre_viewport_client_draw
  , .on_post_viewport_client_draw ]

/-- The host-registration half of `ScriptContext::setup_callback_bindings`
(Main.cpp lines 189-201): one `add_callback(cbs->on_*, on_*)` per slot, in
source order. The Lua-facing half (the `UEVR_SDKCallbacks` usertype whose
lambdas push to the handler vectors) is modelled by `ScriptContext.register`. -/
def ScriptContext.setup_callback_bindings (s : ScriptContext) :
    ScriptContext × List HostCall :=
  slotRegistrationOrder.foldl
    (fun acc slot =>
      let step := acc.1.add_callback slot (trampolineAddr slot)
      (step.1, acc.2 ++ step.2))
    (s, [])

/-- `ScriptContext::setup_bindings` (Main.cpp lines 239-391): all the
`new_usertype` declarations are Lua-side registrations with no effect on the
relay state; the only relay-relevant step is the call to
`setup_callback_bindings`. -/
def ScriptContext.setup_bindings (s : ScriptContext) : ScriptContext × List HostCall :=
  s.setup_callback_bindings

/-- One of the eight `UEVR_SDKCallbacks` usertype lambdas (Main.cpp lines
204-235): under the lock, `push_back(fn)` onto the slot's handler vector. -/
def ScriptContext.register (s : ScriptContext) (slot : CallbackSlot) (fn : Nat) :
    ScriptContext :=
  match slot with
  | .on_pre_engine_tick =>
      { s with m_on_pre_engine_tick_callbacks :=
          s.m_on_pre_engine_tick_callbacks ++ [fn] }
  | .on_post_engine_tick =>
      { s with m_on_post_engine_tick_callbacks :=
          s.m_on_post_engine_tick_callbacks ++ [fn] }
  | .on_pre_slate_draw_window_render_thread =>
      { s with m_on_pre_slate_draw_window_render_thread_callbacks :=
          s.m_on_pre_slate_draw_window_render_thread_callbacks ++ [fn] }
  | .on_post_slate_draw_window_render_thread =>
      { s with m_on_post_slate_draw_window_render_thread_callbacks :=
          s.m_on_post_slate_draw_window_render_thread_callbacks ++ [fn] }
  | .on_pre_calculate_stereo_view_offset =>
      { s with m_on_pre_calculate_stereo_view_offset_callbacks :=
          s.m_on_pre_calculate_stereo_view_offset_callbacks ++ [fn] }
  | .on_post_calculate_stereo_view_offset =>
      { s with m_on_post_calculate_stereo_view_offset_callbacks :=
          s.m_on_post_calculate_stereo_view_offset_callbacks ++ [fn] }
  | .on_pre_viewport_client_draw =>
      { s with m_on_pre_viewport_client_draw_callbacks :=
          s.m_on_pre_viewport_client_draw_callbacks ++ [fn] }
  | .on_post_viewport_client_draw =>
      { s with m_on_post_viewport_client_draw_callbacks :=
          s.m_on_post_viewport_client_draw_callbacks ++ [fn] }

/-- The handler vector belonging to a slot. -/
def ScriptContext.handlers (s : ScriptContext) : CallbackSlot → List Nat
  | .on_pre_engine_tick => s.m_on_pre_engine_tick_callbacks
  | .on_post_engine_tick => s.m_on_post_engine_tick_callbacks
  | .on_pre_slate_draw_window_render_thread =>
      s.m_on_pre_slate_draw_window_render_thread_callbacks
  | .on_post_slate_draw_window_render_thread =>
      s.m_on_post_slate_draw_window_render_thread_callbacks
  | .on_pre_calculate_stereo_view_offset =>
      s.m_on_pre_calculate_stereo_view_offset_callbacks
  | .on_post_calculate_stereo_view_offset =>
      s.m_on_post_calculate_stereo_view_offset_callbacks
  | .on_pre_viewport_client_draw => s.m_on_pre_viewport_client_draw_callbacks
  | .on_post_viewport_client_draw => s.m_on_post_viewport_client_draw_callbacks

/-- `luaopen_LuaVR` (Main.cpp lines 394-409): construct the global
`ScriptContext`; when it is not valid, log and return without setting up any
binding; otherwise run `setup_bindings`. -/
def luaopen_LuaVR (backend_module : Bool)
    (g_plugin_initialize_param : Option UEVR_PluginInitializeParam) :
    ScriptContext × List HostCall :=
  let s := ScriptContext.construct backend_module g_plugin_initialize_param
  if s.valid then s.setup_bindings else (s, [])

/-- A script-initiated operation during the relay's lifetime: a call to one of
the `UEVR_SDKCallbacks` subscription lambdas. (Trampoline dispatch is modelled
separately and never changes the state.) -/
inductive Op where
  | register (slot : CallbackSlot) (fn : Nat)
deriving DecidableEq, Repr

/-- Run a sequence of script-initiated operations. -/
def runOps (s : ScriptContext) : List Op → ScriptContext
  | [] => s
  | Op.register slot fn :: rest => runOps (s.register slot fn) rest

/-- The relay state after module initialisation followed by a sequence of
script-handler registrations. -/
def contextAfter (backend_module : Bool)
    (g_plugin_initialize_param : Option UEVR_PluginInitializeParam)
    (ops : List Op) : ScriptContext :=
  runOps (luaopen_LuaVR backend_module g_plugin_initialize_param).1 ops

/-- Every host-ABI call made over a full relay lifetime: the calls made during
`luaopen_LuaVR`, then (registrations make none) the calls made by the
destructor at teardown. -/
def lifetimeHostCalls (backend_module : Bool)
    (g_plugin_initialize_param : Option UEVR_PluginInitializeParam)
    (ops : List Op) : List HostCall :=
  (luaopen_LuaVR backend_module g_plugin_initialize_param).2 ++
    ((contextAfter backend_module g_plugin_initialize_param ops).destruct).2

/-- Addresses passed to a host adder function, in order of the calls. -/
def addAddrs (calls : List HostCall) : List Nat :=
  calls.filterMap fun c =>
    match c with
    | .add_callback _ a => some a
    | .remove_callback _ => none

/-- Addresses passed to the host's `remove_callback`, in order of the calls. -/
def removeAddrs (calls : List HostCall) : List Nat :=
  calls.filterMap fun c =>
    match c with
    | .add_callback _ _ => none
    | .remove_callback a => some a

/-- Outcome of invoking one `sol::protected_function` on given arguments:
either the protected call returned a `protected_function_result` (valid, or
invalid carrying the Lua error message), or the invocation itself threw a C++
exception (`std::exception` with a `what()` string, or anything else). The
script runtime determines this; dispatch receives it as a behaviour function. -/
inductive RawCall where
  | returned (is_valid : Bool) (errMsg : String)
  | raised_std (what : String)
  | raised_unknown
deriving DecidableEq, Repr

/-- A C++ exception crossing the handler-invocation boundary. -/
inductive CppExn where
  | std_exception (what : String)
  | unknown
deriving DecidableEq, Repr

/-- `ScriptContext::handle_protected_result` (Main.cpp lines 51-58): a valid
result is returned unchanged; an invalid one is handed to
`sol::script_default_on_error`, which under sol2's default configuration
rethrows the result's error as a `sol::error` — a `std::exception` whose
`what()` is the Lua error message. -/
def handle_protected_result (is_valid : Bool) (errMsg : String) : Except CppExn Unit :=
  if is_valid then Except.ok () else Except.error (CppExn.std_exception errMsg)

/-- The `try` body of one loop iteration of a trampoline:
`handle_protected_result(fn(args...))`, where the call itself may throw. -/
def tryInvoke (outcome : RawCall) : Except CppExn Unit :=
  match outcome with
  | .returned v msg => handle_protected_result v msg
  | .raised_std w => Except.error (CppExn.std_exception w)
  | .raised_unknown => Except.error CppExn.unknown

/-- `ScriptContext::log` (Main.cpp lines 60-62). -/
def logLine (message : String) : String :=
  "[LuaVR] " ++ message

/-- The two `catch` clauses of a trampoline loop iteration (e.g. Main.cpp
lines 97-101): a `std::exception` is logged with the slot name and its
message; anything else is logged as an unknown exception; a completed body
logs nothing. -/
def catchClauses (slotName : String) : Except CppExn Unit → List String
  | Except.ok () => []
  | Except.error (CppExn.std_exception w) =>
      [logLine ("Exception in " ++ slotName ++ ": " ++ w)]
  | Except.error CppExn.unknown =>
      [logLine ("Unknown exception in " ++ slotName)]

/-- The common shape of all eight trampoline bodies (Main.cpp lines 93-186):
`for (auto& fn : list) try { handle_protected_result(fn(args)); } catch ...`.
Returns the invocation trace (which handler was called, with which arguments)
and the log output, in order. `beh` gives each handler's outcome on the
arguments. -/
def dispatchLoop {α : Type} (slotName : String) (beh : Nat → α → RawCall) (args : α) :
    List Nat → List (Nat × α) × List String
  | [] => ([], [])
  | fn :: rest =>
      let here := catchClauses slotName (tryInvoke (beh fn args))
      let tail := dispatchLoop slotName beh args rest
      ((fn, args) :: tail.1, here ++ tail.2)

/-- Arguments the host passes to `on_pre_engine_tick` (Main.cpp line 93):
an opaque `UEVR_UGameEngineHandle` and the `float delta_seconds` payload,
both passed through to handlers untouched. -/
structure PreEngineTickArgs where
  engine : Nat
  delta_seconds : Nat
deriving DecidableEq, Repr

/-- `ScriptContext::on_pre_engine_tick` (Main.cpp lines 93-102): lock, iterate
`m_on_pre_engine_tick_callbacks`, invoke each handler with the native
arguments, catch and log failures. The loop body never writes the state, so
the trampoline returns it unchanged alongside the trace and log. -/
def ScriptContext.on_pre_engine_tick (s : ScriptContext)
    (beh : Nat → PreEngineTickArgs → RawCall) (engine delta_seconds : Nat) :
    ScriptContext × List (Nat × PreEngineTickArgs) × List String :=
  (s, dispatchLoop "on_pre_engine_tick" beh ⟨engine, delta_seconds⟩
        s.m_on_pre_engine_tick_callbacks)

/-- Arguments the host passes to `on_pre_calculate_stereo_view_offset`
(Main.cpp line 140): an opaque device handle, the `int view_index`, the
`float world_to_meters` payload, two opaque out-pointers and a flag. -/
structure PreStereoViewOffsetArgs where
  device : Nat
  view_index : Int
  world_to_meters : Nat
  position : Nat
  rotation : Nat
  is_double : Bool
deriving DecidableEq, Repr

/-- `ScriptContext::on_pre_calculate_stereo_view_offset` (Main.cpp lines
140-150): same loop shape over
`m_on_pre_calculate_stereo_view_offset_callbacks`. -/
def ScriptContext.on_pre_calculate_stereo_view_offset (s : ScriptContext)
    (beh : Nat → PreStereoViewOffsetArgs → RawCall)
    (device : Nat) (view_index : Int) (world_to_meters position rotation : Nat)
    (is_double : Bool) :
    ScriptContext × List (Nat × PreStereoViewOffsetArgs) × List String :=
  (s, dispatchLoop "on_pre_calculate_stereo_view_offset" beh
        ⟨device, view_index, world_to_meters, position, rotation, is_double⟩
        s.m_on_pre_calculate_stereo_view_offset_callbacks)

/-- Result of a matrix `__index` metamethod: the `sol::object` made from
`sol::lua_nil`, or the object wrapping the row pointer `&lhs.m[index]` —
recorded as the matrix identity together with the raw (possibly negative)
row index used in the pointer arithmetic. -/
inductive MatrixIndexResult where
  | lua_nil
  | rowRef (lhs : Nat) (index : Int)
deriving DecidableEq, Repr

/-- The `UEVR_Matrix4x4f` `sol::meta_function::index` lambda (Main.cpp lines
354-366): a non-integer index object yields nil; an integer index `>= 4`
yields nil; any other integer index is used directly in `&lhs.m[index]`.
`index_obj` is `some i` when `index_obj.is<int>()` holds with value `i`,
`none` otherwise; `lhs` is the opaque matrix reference. -/
def matrix4x4f_index (lhs : Nat) (index_obj : Option Int) : MatrixIndexResult :=
  match index_obj with
  | none => MatrixIndexResult.lua_nil
  | some index =>
      if index ≥ 4 then MatrixIndexResult.lua_nil
      else MatrixIndexResult.rowRef lhs index

/-- The `UEVR_Matrix4x4d` `sol::meta_function::index` lambda (Main.cpp lines
370-382): textually identical to the `UEVR_Matrix4x4f` one. -/
def matrix4x4d_index (lhs : Nat) (index_obj : Option Int) : MatrixIndexResult :=
  match index_obj with
  | none => MatrixIndexResult.lua_nil
  | some index =>
      if index ≥ 4 then MatrixIndexResult.lua_nil
      else MatrixIndexResult.rowRef lhs index

/-- A row index is within the fixed dimension of a 4x4 matrix. -/
def rowInBounds (index : Int) : Prop :=
  0 ≤ index ∧ index < 4

instance (index : Int) : Decidable (rowInBounds index) := by
  unfold rowInBounds
  infer_instance

/-- The handlers registered to one slot by a sequence of operations, in order. -/
def regsFor (slot : CallbackSlot) : List Op → List Nat
  | [] => []
  | Op.register slot' fn :: rest =>
      if slot' = slot then fn :: regsFor slot rest else regsFor slot rest

/-- A concrete context holding two handlers on the pre-engine-tick slot and
one on the pre-stereo-view-offset slot. -/
def exampleCtx : ScriptContext :=
  ((ScriptContext.fresh.register .on_pre_engine_tick 1).register
      .on_pre_engine_tick 2).register .on_pre_calculate_stereo_view_offset 3

/-- A concrete handler behaviour: handler 1 yields an invalid protected result
carrying the Lua error message "boom"; every other handler succeeds. -/
def exampleBeh : Nat → PreEngineTickArgs → RawCall :=
  fun f _ => if f = 1 then RawCall.returned false "boom" else RawCall.returned true ""

/-- A concrete behaviour where every stereo-view-offset handler succeeds. -/
def exampleStereoBeh : Nat → PreStereoViewOffsetArgs → RawCall :=
  fun _ _ => RawCall.returned true ""

theorem register_param (s : ScriptContext) (slot : CallbackSlot) (fn : Nat) :
    (s.register slot fn).m_plugin_initialize_param = s.m_plugin_initialize_param := by
  cases slot <;> rfl

theorem register_remove_list (s : ScriptContext) (slot : CallbackSlot) (fn : Nat) :
    (s.register slot fn).m_callbacks_to_remove = s.m_callbacks_to_remove := by
  cases slot <;> rfl

theorem handlers_register (s : ScriptContext) (slot slot' : CallbackSlot) (fn : Nat) :
    (s.register slot' fn).handlers slot =
      if slot' = slot then s.handlers slot ++ [fn] else s.handlers slot := by
  cases slot <;> cases slot' <;>
    simp [ScriptContext.register, ScriptContext.handlers]

theorem runOps_param : ∀ (ops : List Op) (s : ScriptContext),
    (runOps s ops).m_plugin_initialize_param = s.m_plugin_initialize_param
  | [], _ => rfl
  | Op.register slot fn :: rest, s => by
      rw [runOps, runOps_param rest, register_param]

theorem runOps_remove_list : ∀ (ops : List Op) (s : ScriptContext),
    (runOps s ops).m_callbacks_to_remove = s.m_callbacks_to_remove
  | [], _ => rfl
  | Op.register slot fn :: rest, s => by
      rw [runOps, runOps_remove_list rest, register_remove_list]

theorem handlers_runOps : ∀ (ops : List Op) (s : ScriptContext) (slot : CallbackSlot),
    (runOps s ops).handlers slot = s.handlers slot ++ regsFor slot ops
  | [], s, slot => by simp [runOps, regsFor]
  | Op.register slot' fn :: rest, s, slot => by
      rw [runOps, handlers_runOps rest, handlers_register, regsFor]
      by_cases h : slot' = slot <;> simp [h]

theorem luaopen_found (q : UEVR_PluginInitializeParam) :
    luaopen_LuaVR true (some q) =
      ({ ScriptContext.fresh with
          m_plugin_initialize_param := some q
          m_callbacks_to_remove := [0, 1, 2, 3, 4, 5, 6, 7] },
       [ HostCall.add_callback .on_pre_engine_tick 0
       , HostCall.add_callback .on_post_engine_tick 1
       , HostCall.add_callback .on_pre_slate_draw_window_render_thread 2
       , HostCall.add_callback .on_post_slate_draw_window_render_thread 3
       , HostCall.add_callback .on_pre_calculate_stereo_view_offset 4
       , HostCall.add_callback .on_post_calculate_stereo_view_offset 5
       , HostCall.add_callback .on_pre_viewport_client_draw 6
       , HostCall.add_callback .on_post_viewport_client_draw 7 ]) := rfl

theorem luaopen_found_calls (q : UEVR_PluginInitializeParam) :
    (luaopen_LuaVR true (some q)).2 =
      [ HostCall.add_callback .on_pre_engine_tick 0
      , HostCall.add_callback .on_post_engine_tick 1
      , HostCall.add_callback .on_pre_slate_draw_window_render_thread 2
      , HostCall.add_callback .on_post_slate_draw_window_render_thread 3
      , HostCall.add_callback .on_pre_calculate_stereo_view_offset 4
      , HostCall.add_callback .on_post_calculate_stereo_view_offset 5
      , HostCall.add_callback .on_pre_viewport_client_draw 6
      , HostCall.add_callback .on_post_viewport_client_draw 7 ] := rfl

theorem luaopen_found_remove_list (q : UEVR_PluginInitializeParam) :
    (luaopen_LuaVR true (some q)).1.m_callbacks_to_remove
      = [0, 1, 2, 3, 4, 5, 6, 7] := rfl

theorem luaopen_not_found (b : Bool) (p : Option UEVR_PluginInitializeParam)
    (h : b = false ∨ p = none) :
    luaopen_LuaVR b p = (ScriptContext.fresh, []) := by
  rcases h with h | h
  · subst h; rfl
  · subst h; cases b <;> rfl

theorem handlers_fresh (slot : CallbackSlot) : ScriptContext.fresh.handlers slot = [] := by
  cases slot <;> rfl

theorem luaopen_handlers (b : Bool) (p : Option UEVR_PluginInitializeParam)
    (slot : CallbackSlot) : (luaopen_LuaVR b p).1.handlers slot = [] := by
  cases b
  · rw [luaopen_not_found false p (Or.inl rfl)]; exact handlers_fresh slot
  · cases p
    · rw [luaopen_not_found true none (Or.inr rfl)]; exact handlers_fresh slot
    · rename_i q
      rw [luaopen_found q]
      cases slot <;> rfl

theorem destruct_some (s : ScriptContext) (h : s.m_plugin_initialize_param.isSome = true) :
    s.destruct = ({ s with m_callbacks_to_remove := [] },
      s.m_callbacks_to_remove.map HostCall.remove_callback) := by
  unfold ScriptContext.destruct
  cases hp : s.m_plugin_initialize_param
  · rw [hp] at h; simp at h
  · rfl

theorem destruct_none (s : ScriptContext) (h : s.m_plugin_initialize_param = none) :
    s.destruct = (s, []) := by
  unfold ScriptContext.destruct
  rw [h]

theorem destruct_empty (s : ScriptContext) (h : s.m_callbacks_to_remove = []) :
    s.destruct = (s, []) := by
  rcases s with ⟨p, r, a1, a2, a3, a4, a5, a6, a7, a8⟩
  obtain rfl : r = [] := h
  cases p <;> rfl

theorem lifetime_not_found (b : Bool) (p : Option UEVR_PluginInitializeParam)
    (ops : List Op) (h : b = false ∨ p = none) :
    lifetimeHostCalls b p ops = [] := by
  unfold lifetimeHostCalls contextAfter
  rw [luaopen_not_found b p h]
  have hparam : (runOps ScriptContext.fresh ops).m_plugin_initialize_param = none :=
    runOps_param ops ScriptContext.fresh
  rw [destruct_none _ hparam]
  rfl

theorem lifetime_found (q : UEVR_PluginInitializeParam) (ops : List Op) :
    lifetimeHostCalls true (some q) ops =
      (luaopen_LuaVR true (some q)).2 ++
        ((luaopen_LuaVR true (some q)).1.m_callbacks_to_remove.map HostCall.remove_callback) := by
  unfold lifetimeHostCalls contextAfter
  have hparam : (runOps (luaopen_LuaVR true (some q)).1 ops).m_plugin_initialize_param
      = some q := by
    rw [runOps_param, luaopen_found]
  rw [destruct_some _ (by rw [hparam]; rfl), runOps_remove_list]

theorem addAddrs_append (l l' : List HostCall) :
    addAddrs (l ++ l') = addAddrs l ++ addAddrs l' := by
  simp [addAddrs, List.filterMap_append]

theorem removeAddrs_append (l l' : List HostCall) :
    removeAddrs (l ++ l') = removeAddrs l ++ removeAddrs l' := by
  simp [removeAddrs, List.filterMap_append]

theorem addAddrs_map_remove (l : List Nat) :
    addAddrs (l.map HostCall.remove_callback) = [] := by
  induction l with
  | nil => rfl
  | cons a rest ih => simp [addAddrs, List.filterMap, ih]

theorem removeAddrs_map_remove (l : List Nat) :
    removeAddrs (l.map HostCall.remove_callback) = l := by
  induction l with
  | nil => rfl
  | cons a rest ih => simpa [removeAddrs, List.filterMap] using ih

theorem addAddrs_lifetime_found (q : UEVR_PluginInitializeParam) (ops : List Op) :
    addAddrs (lifetimeHostCalls true (some q) ops) = [0, 1, 2, 3, 4, 5, 6, 7] := by
  rw [lifetime_found, addAddrs_append, addAddrs_map_remove, luaopen_found]
  rfl

theorem removeAddrs_lifetime_found (q : UEVR_PluginInitializeParam) (ops : List Op) :
    removeAddrs (lifetimeHostCalls true (some q) ops) = [0, 1, 2, 3, 4, 5, 6, 7] := by
  rw [lifetime_found, removeAddrs_append, removeAddrs_map_remove, luaopen_found]
  rfl

theorem dispatchLoop_trace {α : Type} (slotName : String) (beh : Nat → α → RawCall)
    (args : α) : ∀ l : List Nat,
    (dispatchLoop slotName beh args l).1 = l.map fun fn => (fn, args)
  | [] => rfl
  | fn :: rest => by
      rw [dispatchLoop]
      simp [dispatchLoop_trace slotName beh args rest]

theorem dispatchLoop_log_mem {α : Type} (slotName : String) (beh : Nat → α → RawCall)
    (args : α) (f : Nat) (line : String) :
    ∀ l : List Nat, f ∈ l →
      line ∈ catchClauses slotName (tryInvoke (beh f args)) →
      line ∈ (dispatchLoop slotName beh args l).2
  | [], hf, _ => absurd hf (List.not_mem_nil f)
  | fn :: rest, hf, hline => by
      rw [dispatchLoop]
      simp only [List.mem_append]
      rcases List.mem_cons.mp hf with heq | hmem
      · subst heq; exact Or.inl hline
      · exact Or.inr (dispatchLoop_log_mem slotName beh args f line rest hmem hline)

theorem count_map_pair {α : Type} [DecidableEq α] (a : α) (f : Nat) :
    ∀ l : List Nat, (l.map fun fn => (fn, a)).count (f, a) = l.count f
  | [] => rfl
  | x :: rest => by
      simp [List.count_cons, count_map_pair a f rest]

theorem contextAfter_invariant (b : Bool) (p : Option UEVR_PluginInitializeParam)
    (ops : List Op) :
    ((contextAfter b p ops).m_plugin_initialize_param = none ∧
      (contextAfter b p ops).m_callbacks_to_remove = []) ∨
    (∃ q, p = some q ∧ b = true ∧
      (contextAfter b p ops).m_plugin_initialize_param = some q ∧
      (contextAfter b p ops).m_callbacks_to_remove = [0, 1, 2, 3, 4, 5, 6, 7]) := by
  unfold contextAfter
  rw [runOps_param, runOps_remove_list]
  cases b
  · left; rw [luaopen_not_found false p (Or.inl rfl)]; exact ⟨rfl, rfl⟩
  · cases p
    · left; rw [luaopen_not_found true none (Or.inr rfl)]; exact ⟨rfl, rfl⟩
    · rename_i q
      right
      exact ⟨q, rfl, rfl, by rw [luaopen_found], by rw [luaopen_found]⟩

/-- C1: if a handler in the pre-engine-tick slot's list raises a Lua error (an
invalid protected result) or a C++ exception during a dispatch, the trampoline
returns normally with the context unchanged, every handler in the list is
still invoked with the dispatch's arguments, and a log line with the slot name
and the error message is emitted. -/
theorem relay_handler_failure_contained (s : ScriptContext)
    (beh : Nat → PreEngineTickArgs → RawCall) (engine delta_seconds f : Nat)
    (msg : String)
    (hf : f ∈ s.m_on_pre_engine_tick_callbacks)
    (hfail : beh f ⟨engine, delta_seconds⟩ = RawCall.returned false msg ∨
             beh f ⟨engine, delta_seconds⟩ = RawCall.raised_std msg) :
    (s.on_pre_engine_tick beh engine delta_seconds).1 = s ∧
    (s.on_pre_engine_tick beh engine delta_seconds).2.1
      = s.m_on_pre_engine_tick_callbacks.map
          (fun fn => (fn, PreEngineTickArgs.mk engine delta_seconds)) ∧
    logLine ("Exception in on_pre_engine_tick: " ++ msg)
      ∈ (s.on_pre_engine_tick beh engine delta_seconds).2.2 := by
  refine ⟨rfl, dispatchLoop_trace _ _ _ _, ?_⟩
  apply dispatchLoop_log_mem "on_pre_engine_tick" beh ⟨engine, delta_seconds⟩ f _ _ hf
  rcases hfail with h | h <;>
    simp [h, tryInvoke, handle_protected_result, catchClauses]

theorem relay_handler_failure_contained_witness :
    1 ∈ exampleCtx.m_on_pre_engine_tick_callbacks ∧
    (exampleCtx.on_pre_engine_tick exampleBeh 1 16).1 = exampleCtx ∧
    (exampleCtx.on_pre_engine_tick exampleBeh 1 16).2.1
      = exampleCtx.m_on_pre_engine_tick_callbacks.map
          (fun fn => (fn, PreEngineTickArgs.mk 1 16)) ∧
    logLine ("Exception in on_pre_engine_tick: " ++ "boom")
      ∈ (exampleCtx.on_pre_engine_tick exampleBeh 1 16).2.2 :=
  ⟨by decide,
   relay_handler_failure_contained exampleCtx exampleBeh 1 16 1 "boom"
     (by decide) (Or.inl rfl)⟩

/-- C2: over a full relay lifetime (construction, any sequence of handler
registrations, teardown), the addresses passed to the host's
`remove_callback` are exactly the addresses that were passed to the host's
add-callback functions, each exactly once and nothing else. -/
theorem relay_teardown_removals_match_additions (b : Bool)
    (p : Option UEVR_PluginInitializeParam) (ops : List Op) :
    removeAddrs (lifetimeHostCalls b p ops) = addAddrs (lifetimeHostCalls b p ops) := by
  cases b
  · rw [lifetime_not_found false p ops (Or.inl rfl)]; rfl
  · cases p
    · rw [lifetime_not_found true none ops (Or.inr rfl)]; rfl
    · rename_i q
      rw [addAddrs_lifetime_found q ops, removeAddrs_lifetime_found q ops]

/-- C3: when construction fails to locate the host function table (backend
module absent, or the symbol lookup yields null), `valid()` is false, every
subsequent `add_callback` on the resulting context is a no-op making no host
call, and no host call at all is made over the whole lifetime. -/
theorem relay_invalid_construction_noop (b : Bool)
    (p : Option UEVR_PluginInitializeParam) (h : b = false ∨ p = none)
    (ops : List Op) (slot : CallbackSlot) (cb : Nat) :
    (luaopen_LuaVR b p).1.valid = false ∧
    (contextAfter b p ops).add_callback slot cb = (contextAfter b p ops, []) ∧
    lifetimeHostCalls b p ops = [] := by
  have hlua := luaopen_not_found b p h
  have hparam : (contextAfter b p ops).m_plugin_initialize_param = none := by
    unfold contextAfter
    rw [runOps_param, hlua]
    rfl
  refine ⟨by rw [hlua]; rfl, ?_, lifetime_not_found b p ops h⟩
  unfold ScriptContext.add_callback
  rw [hparam]

theorem relay_invalid_construction_noop_witness :
    (luaopen_LuaVR false none).1.valid = false ∧
    (contextAfter false none [Op.register .on_pre_engine_tick 7]).add_callback
        .on_post_engine_tick 1
      = (contextAfter false none [Op.register .on_pre_engine_tick 7], []) ∧
    lifetimeHostCalls false none [Op.register .on_pre_engine_tick 7] = [] :=
  relay_invalid_construction_noop false none (Or.inl rfl)
    [Op.register .on_pre_engine_tick 7] .on_post_engine_tick 1

/-- C4: for every slot and any number N >= 1 of script handlers registered to
that slot during the lifetime of a successfully constructed relay, exactly one
host add-callback call carries that slot's trampoline address. -/
theorem relay_single_host_registration_per_slot (q : UEVR_PluginInitializeParam)
    (ops : List Op) (slot : CallbackSlot)
    (h : 1 ≤ (regsFor slot ops).length) :
    (addAddrs (lifetimeHostCalls true (some q) ops)).count (trampolineAddr slot) = 1 := by
  rw [addAddrs_lifetime_found q ops]
  cases slot <;> decide

theorem relay_single_host_registration_per_slot_witness :
    1 ≤ (regsFor .on_pre_engine_tick
          [Op.register .on_pre_engine_tick 5, Op.register .on_pre_engine_tick 6]).length ∧
    (addAddrs (lifetimeHostCalls true (some ⟨0⟩)
          [Op.register .on_pre_engine_tick 5, Op.register .on_pre_engine_tick 6])).count
        (trampolineAddr .on_pre_engine_tick) = 1 :=
  ⟨by decide,
   relay_single_host_registration_per_slot ⟨0⟩
     [Op.register .on_pre_engine_tick 5, Op.register .on_pre_engine_tick 6]
     .on_pre_engine_tick (by decide)⟩

/-- C5: after any sequence of registrations starting from module
initialisation, a dispatch of the pre-engine-tick trampoline invokes exactly
the handlers registered to that slot, in registration order. -/
theorem relay_dispatch_in_registration_order (b : Bool)
    (p : Option UEVR_PluginInitializeParam) (ops : List Op)
    (beh : Nat → PreEngineTickArgs → RawCall) (engine delta_seconds : Nat) :
    ((contextAfter b p ops).on_pre_engine_tick beh engine delta_seconds).2.1
      = (regsFor .on_pre_engine_tick ops).map
          (fun fn => (fn, PreEngineTickArgs.mk engine delta_seconds)) := by
  have hl : (contextAfter b p ops).m_on_pre_engine_tick_callbacks
      = regsFor .on_pre_engine_tick ops := by
    have hr := handlers_runOps ops (luaopen_LuaVR b p).1 .on_pre_engine_tick
    rw [luaopen_handlers] at hr
    simpa [ScriptContext.handlers, contextAfter] using hr
  show (dispatchLoop "on_pre_engine_tick" beh ⟨engine, delta_seconds⟩
      (contextAfter b p ops).m_on_pre_engine_tick_callbacks).1 = _
  rw [dispatchLoop_trace, hl]

/-- C6 counterexample: with a successfully constructed relay and an op list
containing no handler registration at all, the host add-callback call for the
pre-engine-tick trampoline has already been made during `luaopen_LuaVR`,
while the slot's handler list is still empty — refuting the claim that the
trampoline is registered only at the first script-handler registration. -/
theorem relay_eager_registration_counterexample :
    HostCall.add_callback .on_pre_engine_tick (trampolineAddr .on_pre_engine_tick)
        ∈ (luaopen_LuaVR true (some ⟨0⟩)).2 ∧
    (luaopen_LuaVR true (some ⟨0⟩)).1.handlers .on_pre_engine_tick = [] ∧
    contextAfter true (some ⟨0⟩) [] = (luaopen_LuaVR true (some ⟨0⟩)).1 := by
  decide

/-- C6 amended: each slot's trampoline is registered with the host exactly
once, eagerly during `setup_callback_bindings` at module initialisation —
before any script handler is registered (the handler lists are still empty at
that point) — its address is recorded in the removal set, and no further host
add-callback call for it is made over the whole lifetime regardless of the
registrations performed. -/
theorem relay_trampoline_registered_eagerly_once (q : UEVR_PluginInitializeParam)
    (slot : CallbackSlot) (ops : List Op) :
    (addAddrs (luaopen_LuaVR true (some q)).2).count (trampolineAddr slot) = 1 ∧
    trampolineAddr slot ∈ (luaopen_LuaVR true (some q)).1.m_callbacks_to_remove ∧
    (luaopen_LuaVR true (some q)).1.handlers slot = [] ∧
    (addAddrs (lifetimeHostCalls true (some q) ops)).count (trampolineAddr slot) = 1 := by
  rw [addAddrs_lifetime_found q ops, luaopen_found_calls q, luaopen_found_remove_list q]
  refine ⟨?_, ?_, luaopen_handlers true (some q) slot, ?_⟩
  · cases slot <;> decide
  · cases slot <;> decide
  · cases slot <;> decide

/-- C7: teardown of a relay that was never valid makes no host removal call
and leaves the state untouched; and teardown is idempotent — after one
teardown the removal set is empty, so a second teardown changes nothing and
makes no host call. -/
theorem relay_teardown_safe_and_idempotent (b : Bool)
    (p : Option UEVR_PluginInitializeParam) (ops : List Op) :
    ((luaopen_LuaVR b p).1.valid = false →
      (contextAfter b p ops).destruct = (contextAfter b p ops, [])) ∧
    ((contextAfter b p ops).destruct.1).m_callbacks_to_remove = [] ∧
    ((contextAfter b p ops).destruct.1).destruct
      = ((contextAfter b p ops).destruct.1, []) := by
  rcases contextAfter_invariant b p ops with ⟨hp, hr⟩ | ⟨q, hpq, hb, hp, hr⟩
  · refine ⟨fun _ => destruct_none _ hp, ?_, ?_⟩
    · rw [destruct_none _ hp]; exact hr
    · rw [destruct_none _ hp]
      exact destruct_none _ hp
  · constructor
    · intro hv
      subst hpq; subst hb
      have : (luaopen_LuaVR true (some q)).1.valid = true := by
        rw [luaopen_found]; rfl
      rw [this] at hv
      cases hv
    · rw [destruct_some _ (by rw [hp]; rfl)]
      refine ⟨rfl, ?_⟩
      exact destruct_empty _ rfl

theorem relay_teardown_safe_and_idempotent_witness :
    (contextAfter false none []).destruct = (contextAfter false none [], []) ∧
    ((contextAfter true (some ⟨0⟩)
        [Op.register .on_pre_engine_tick 1]).destruct.1).m_callbacks_to_remove = [] ∧
    ((contextAfter true (some ⟨0⟩)
        [Op.register .on_pre_engine_tick 1]).destruct.1).destruct
      = (((contextAfter true (some ⟨0⟩)
            [Op.register .on_pre_engine_tick 1]).destruct.1), []) :=
  ⟨(relay_teardown_safe_and_idempotent false none []).1 (by decide),
   (relay_teardown_safe_and_idempotent true (some ⟨0⟩)
      [Op.register .on_pre_engine_tick 1]).2.1,
   (relay_teardown_safe_and_idempotent true (some ⟨0⟩)
      [Op.register .on_pre_engine_tick 1]).2.2⟩

/-- C9: on a dispatch of the pre-engine-tick trampoline (and likewise the
pre-stereo-view-offset trampoline), a handler registered once is invoked
exactly once, and every invocation of the dispatch carries exactly the native
arguments the host supplied, unmodified. -/
theorem relay_dispatch_exact_args_once (s : ScriptContext)
    (beh1 : Nat → PreEngineTickArgs → RawCall)
    (beh2 : Nat → PreStereoViewOffsetArgs → RawCall)
    (engine delta_seconds f device : Nat) (view_index : Int)
    (world_to_meters position rotation g : Nat) (is_double : Bool)
    (h1 : s.m_on_pre_engine_tick_callbacks.count f = 1)
    (h2 : s.m_on_pre_calculate_stereo_view_offset_callbacks.count g = 1) :
    ((s.on_pre_engine_tick beh1 engine delta_seconds).2.1.count
        (f, PreEngineTickArgs.mk engine delta_seconds) = 1 ∧
      ∀ pr ∈ (s.on_pre_engine_tick beh1 engine delta_seconds).2.1,
        pr.2 = PreEngineTickArgs.mk engine delta_seconds) ∧
    ((s.on_pre_calculate_stereo_view_offset beh2 device view_index world_to_meters
          position rotation is_double).2.1.count
        (g, PreStereoViewOffsetArgs.mk device view_index world_to_meters position
            rotation is_double) = 1 ∧
      ∀ pr ∈ (s.on_pre_calculate_stereo_view_offset beh2 device view_index
          world_to_meters position rotation is_double).2.1,
        pr.2 = PreStereoViewOffsetArgs.mk device view_index world_to_meters position
          rotation is_double) := by
  have htr1 : (s.on_pre_engine_tick beh1 engine delta_seconds).2.1
      = s.m_on_pre_engine_tick_callbacks.map
          (fun fn => (fn, PreEngineTickArgs.mk engine delta_seconds)) :=
    dispatchLoop_trace _ _ _ _
  have htr2 : (s.on_pre_calculate_stereo_view_offset beh2 device view_index
        world_to_meters position rotation is_double).2.1
      = s.m_on_pre_calculate_stereo_view_offset_callbacks.map
          (fun fn => (fn, PreStereoViewOffsetArgs.mk device view_index world_to_meters
              position rotation is_double)) :=
    dispatchLoop_trace _ _ _ _
  refine ⟨⟨?_, ?_⟩, ?_, ?_⟩
  · rw [htr1, count_map_pair]; exact h1
  · rw [htr1]
    intro pr hpr
    rcases List.mem_map.mp hpr with ⟨fn, _, rfl⟩
    rfl
  · rw [htr2, count_map_pair]; exact h2
  · rw [htr2]
    intro pr hpr
    rcases List.mem_map.mp hpr with ⟨fn, _, rfl⟩
    rfl

theorem relay_dispatch_exact_args_once_witness :
    exampleCtx.m_on_pre_engine_tick_callbacks.count 1 = 1 ∧
    exampleCtx.m_on_pre_calculate_stereo_view_offset_callbacks.count 3 = 1 ∧
    (((exampleCtx.on_pre_engine_tick exampleBeh 1 16).2.1.count
        (1, PreEngineTickArgs.mk 1 16) = 1 ∧
      ∀ pr ∈ (exampleCtx.on_pre_engine_tick exampleBeh 1 16).2.1,
        pr.2 = PreEngineTickArgs.mk 1 16) ∧
     ((exampleCtx.on_pre_calculate_stereo_view_offset exampleStereoBeh 9 0 1 100 200
          false).2.1.count
        (3, PreStereoViewOffsetArgs.mk 9 0 1 100 200 false) = 1 ∧
      ∀ pr ∈ (exampleCtx.on_pre_calculate_stereo_view_offset exampleStereoBeh 9 0 1 100
          200 false).2.1,
        pr.2 = PreStereoViewOffsetArgs.mk 9 0 1 100 200 false)) :=
  ⟨by decide, by decide,
   relay_dispatch_exact_args_once exampleCtx exampleBeh exampleStereoBeh 1 16 1 9 0 1
     100 200 3 false (by decide) (by decide)⟩

/-- C8: the matrix row accessors reject non-integer indices and integer
indices >= 4, but perform no lower-bound check: the integer index -1 is passed
straight into the row pointer arithmetic `&lhs.m[index]`, an out-of-bounds
access outside 0..3 instead of the nil the claim requires. -/
theorem matrix_negative_index_out_of_bounds :
    matrix4x4f_index 0 (some (-1)) = MatrixIndexResult.rowRef 0 (-1) ∧
    matrix4x4d_index 0 (some (-1)) = MatrixIndexResult.rowRef 0 (-1) ∧
    ¬ rowInBounds (-1) := by decide

/-- C10: for every matrix, a non-integer index object makes both matrix row
accessors return nil, and the result is independent of the matrix (the matrix
is never read). -/
theorem matrix_non_integer_index_nil (lhs lhs' : Nat) :
    matrix4x4f_index lhs none = MatrixIndexResult.lua_nil ∧
    matrix4x4d_index lhs none = MatrixIndexResult.lua_nil ∧
    matrix4x4f_index lhs none = matrix4x4f_index lhs' none ∧
    matrix4x4d_index lhs none = matrix4x4d_index lhs' none :=
  ⟨rfl, rfl, rfl, rfl⟩
